import Mathlib

/-
  Shallow embedding of the Cloudflare secrets-rotation lambda
  (src/lambda/cf.py and src/lambda/rotate.py).

  Conventions of the embedding:
  * Python dicts with a known key schema become structures whose fields are
    Option-typed: `none` models "key absent", `some v` models "key present
    with value v".  Reading a missing key with d[k] is modelled as a
    KeyError result; d.get(k, default) as Option.getD.
  * Timestamps (issued_on / expires_on / not_before, ISO-8601 strings in
    the source) are modelled as integers (seconds); date_fmt and isoparse,
    which in the source convert between datetime values and strings, become
    the identity on this integer representation, keeping the call structure
    of the source visible.
  * Network collaborators (the Cloudflare API client and the AWS Secrets
    Manager client) are passed in as records of functions; the calls the
    code makes against them are additionally recorded in an explicit effect
    trace so that "performs no write / issues no credential" is a statement
    about the trace.
  * Python exceptions become an error type threaded through Except.
-/

/-- Errors raised by the Python code: ValueError, the secrets-manager
ResourceNotFoundException, KeyError (missing dict key), NameError
(use of an unbound local variable), AssertionError (failed assert). -/
inductive PyError where
  | valueError (msg : String)
  | resourceNotFound
  | keyError (key : String)
  | nameError (v : String)
  | assertionError
deriving DecidableEq, Repr

/-- date_fmt (cf.py line 22): formats a datetime; identity on the integer
time representation. -/
def date_fmt (d : Int) : Int := d

/-- dateutil isoparse: parses a formatted timestamp; identity on the
integer time representation. -/
def isoparse (s : Int) : Int := s

/-- timedelta(days = n), in seconds. -/
def timedelta_days (n : Int) : Int := n * 86400

/-- A Cloudflare token policy object; `id` models the optional "id" key,
`scope` stands for the rest of the policy payload. -/
structure Policy where
  id : Option String := none
  scope : String := ""
deriving DecidableEq, Repr

/-- A Cloudflare API token record / request body (the dicts passed to and
returned from cf.user.tokens endpoints).  All keys optional, as in a dict. -/
structure CFToken where
  id : Option String := none
  name : Option String := none
  policies : Option (List Policy) := none
  condition : Option String := none
  issued_on : Option Int := none
  expires_on : Option Int := none
  not_before : Option Int := none
  status : Option String := none
  value : Option String := none
deriving DecidableEq, Repr

/-- Calls made against the Cloudflare token API (the write-side ones). -/
inductive CFEffect where
  | post (data : CFToken)
  | put (token_id : String) (data : CFToken)
  | valuePut (token_id : String)
deriving DecidableEq, Repr

/-- The Cloudflare API client (external collaborator): responses to the
calls cf.py makes. -/
structure CFApi where
  tokens_get : String → Except PyError CFToken
  tokens_post : CFToken → CFToken
  tokens_value_put : String → String

namespace Cf

/-- cf.py roll_api_token: rolls a token secret value
(cf.user.tokens.value.put). -/
def roll_api_token (api : CFApi) (token_id : String) : String × List CFEffect :=
  (api.tokens_value_put token_id, [CFEffect.valuePut token_id])

/-- cf.py create_api_token lines 63-65: `if "id" in policy: del policy["id"]`. -/
def strip_policy_id (policy : Policy) : Policy :=
  match policy.id with
  | some _ => { policy with id := none }
  | none => policy

/-- cf.py clone_api_token line 92-93: `for policy in ...: del policy["id"]` —
the delete is unconditional, so a policy without an "id" key raises KeyError. -/
def del_policy_ids : List Policy → Except PyError (List Policy)
  | [] => .ok []
  | policy :: rest =>
    match policy.id with
    | none => .error (PyError.keyError "id")
    | some _ =>
      match del_policy_ids rest with
      | .error e => .error e
      | .ok rest2 => .ok ({ policy with id := none } :: rest2)

/-- cf.py create_api_token (lines 48-70): builds the request with name,
not_before := now, policies with ids stripped; adds expires_on only when
valid_days > 0; posts it. -/
def create_api_token (api : CFApi) (now : Int) (name : String)
    (policies : List Policy) (valid_days : Int) : CFToken × List CFEffect :=
  let new_token : CFToken :=
    { name := some name
      not_before := some (date_fmt now)
      policies := some (policies.map strip_policy_id) }
  let new_token :=
    if valid_days > 0 then
      { new_token with expires_on := some (date_fmt (now + timedelta_days valid_days)) }
    else new_token
  (api.tokens_post new_token, [CFEffect.post new_token])

/-- cf.py clone_api_token (lines 73-100): fetches the source token, copies
name / policies (ids deleted) / condition (default empty); binds
issued_date and expires_date only under `if "expires_on" in existing_token`,
then uses them unconditionally on line 99 — a source token without
expires_on leaves them unbound (NameError). -/
def clone_api_token (api : CFApi) (now : Int) (token_id : String) :
    Except PyError (CFToken × List CFEffect) :=
  match api.tokens_get token_id with
  | .error e => .error e
  | .ok existing_token =>
    match existing_token.name with
    | none => .error (PyError.keyError "name")
    | some name =>
      match existing_token.policies with
      | none => .error (PyError.keyError "policies")
      | some policies =>
        match del_policy_ids policies with
        | .error e => .error e
        | .ok policies2 =>
          let new_token : CFToken :=
            { name := some name
              not_before := some (date_fmt now)
              policies := some policies2
              condition := some (existing_token.condition.getD "") }
          let issued_expires : Except PyError (Option (Int × Int)) :=
            match existing_token.expires_on with
            | some e =>
              match existing_token.issued_on with
              | some i => .ok (some (isoparse i, isoparse e))
              | none => .error (PyError.keyError "issued_on")
            | none => .ok none
          match issued_expires with
          | .error e => .error e
          | .ok (some (issued_date, expires_date)) =>
            let new_token :=
              { new_token with
                  expires_on := some (date_fmt (now + (expires_date - issued_date))) }
            .ok (api.tokens_post new_token, [CFEffect.post new_token])
          | .ok none => .error (PyError.nameError "expires_date")

/-- cf.py renew_api_token (lines 103-123): fetches the token, resets
not_before to now and status to active; binds issued_date / expires_date
only under `if "expires_on" in existing_token`, then uses them
unconditionally on line 121 (NameError when absent); puts the updated
token back and rolls its value. -/
def renew_api_token (api : CFApi) (now : Int) (token_id : String) :
    Except PyError (String × List CFEffect) :=
  match api.tokens_get token_id with
  | .error e => .error e
  | .ok existing_token0 =>
    let existing_token :=
      { existing_token0 with not_before := some (date_fmt now), status := some "active" }
    let issued_expires : Except PyError (Option (Int × Int)) :=
      match existing_token.expires_on with
      | some e =>
        match existing_token.issued_on with
        | some i => .ok (some (isoparse i, isoparse e))
        | none => .error (PyError.keyError "issued_on")
      | none => .ok none
    match issued_expires with
    | .error e => .error e
    | .ok (some (issued_date, expires_date)) =>
      let existing_token :=
        { existing_token with
            expires_on := some (date_fmt (now + (expires_date - issued_date))) }
      let rolled := roll_api_token api token_id
      .ok (rolled.1, [CFEffect.put token_id existing_token] ++ rolled.2)
    | .ok none => .error (PyError.nameError "expires_date")

end Cf

/-
  rotate.py embedding.
-/

/-- The Attributes dict of a managed secret record.  Covers every key any
branch of rotate.py reads or writes; absent keys are `none`. -/
structure Attrs where
  Name : Option String := none
  Policies : Option (List Policy) := none
  ValidDays : Option Int := none
  TokenId : Option String := none
  TokenValue : Option String := none
  OtherTokenId : Option String := none
  KeyValue : Option String := none
  Hostname : Option String := none
  ValidityDays : Option Int := none
  ZoneId : Option String := none
  TunnelServiceKeyArn : Option String := none
deriving DecidableEq, Repr

/-- The parsed SecretString JSON of a managed secret: a "Type" key, an
"Attributes" object, and (because create_secret line 207 writes
`current_dict["TokenValue"] = ...` at the top level of the dict, not
inside Attributes) an optional top-level "TokenValue" key. -/
structure SecretDict where
  Type' : String
  Attributes : Attrs
  TokenValue : Option String := none
deriving DecidableEq, Repr

/-- The `{id, value}` part of the dict returned by the Cloudflare token
create/clone endpoints, as consumed by rotate.py. -/
structure NewToken where
  id : String
  value : String
deriving DecidableEq, Repr

/-- The cf module as seen from rotate.py (external collaborator behaviour):
one field per cf.py function rotate.py calls. -/
structure Provider where
  token_exists : String → Bool
  renew_api_token : String → String
  clone_api_token : String → NewToken
  create_api_token : String → List Policy → Int → NewToken
  create_origintunnel_service_key : String
  create_argo_tunnel_token : String → String → String → Int → String
  is_token_valid : String → Bool

/-- The observable calls a phase handler makes: Secrets Manager writes
(put_secret_value, update_secret_version_stage) and the credential-issuing
cf-module calls. -/
inductive Effect where
  | put (arn token : String) (payload : SecretDict) (stages : List String)
  | moveStage (arn stage moveTo : String) (removeFrom : Option String)
  | cfCreateToken (name : String) (valid_days : Int)
  | cfRenew (token_id : String)
  | cfClone (token_id : String)
  | cfServiceKey
  | cfTunnelToken (zone_id service_key hostname : String) (valid_days : Int)
deriving DecidableEq, Repr

/-- os.environ as read by rotate.py. -/
structure Env where
  CF_API_KEY : Option String := none
  CF_API_EMAIL : Option String := none
  CF_API_TOKEN : Option String := none
  CF_API_CERTKEY : Option String := none
  CF_TUNNEL_SERVICE_KEY : Option String := none
deriving DecidableEq, Repr

/-- describe_secret response: RotationEnabled and the VersionIdsToStages
dict (modelled as an ordered association list, preserving dict iteration
order, which finish_secret's loop depends on). -/
structure SecretMetadata where
  RotationEnabled : Bool
  VersionIdsToStages : List (String × List String)
deriving DecidableEq, Repr

/-- The read-side of the Secrets Manager service as a phase handler sees
it: describe_secret responses and get_secret_value responses
(arn, optional VersionId, VersionStage → parsed SecretString, `none`
modelling ResourceNotFoundException). -/
structure SecretsManagerState where
  metadata : String → Option SecretMetadata
  getValue : String → Option String → String → Option SecretDict

namespace Rotate

/-- rotate.py assert_env (lines 9-31): asserts the environment variables
required for the secret type, munging CF_API_TOKEN into CF_API_KEY for
apiToken; unknown type raises ValueError. -/
def assert_env (env : Env) (secret_type : String) : Except PyError Env :=
  if secret_type = "apiToken" then
    if ¬ ((env.CF_API_KEY.getD "").length > 0 ∧ (env.CF_API_EMAIL.getD "").length > 0) then
      if (env.CF_API_TOKEN.getD "").length > 0 then
        match env.CF_API_TOKEN with
        | some api_token => .ok { env with CF_API_KEY := some api_token }
        | none => .error (PyError.keyError "CF_API_TOKEN")
      else .error PyError.assertionError
    else .ok env
  else if secret_type = "tunnelServiceKey" then
    if (env.CF_API_KEY.getD "").length > 0 then
      if (env.CF_API_EMAIL.getD "").length > 0 then .ok env
      else .error PyError.assertionError
    else .error PyError.assertionError
  else if secret_type = "argoTunnelToken" then
    if (env.CF_API_CERTKEY.getD "").length > 0 then .ok env
    else .error PyError.assertionError
  else .error (PyError.valueError "Invalid secret token type")

/-- rotate.py create_api_token (lines 368-379): deep-copies the record,
issues a new token from name / policies / valid_days and overwrites
Attributes.TokenValue and Attributes.TokenId.  Every other key of the
copy — including any OtherTokenId — is left as it was. -/
def create_api_token (p : Provider) (secret_value : SecretDict) :
    Except PyError (SecretDict × List Effect) :=
  match secret_value.Attributes.Name with
  | none => .error (PyError.keyError "Name")
  | some name =>
    match secret_value.Attributes.Policies with
    | none => .error (PyError.keyError "Policies")
    | some policies =>
      match secret_value.Attributes.ValidDays with
      | none => .error (PyError.keyError "ValidDays")
      | some valid_days =>
        let new_token := p.create_api_token name policies valid_days
        .ok ({ secret_value with
                 Attributes := { secret_value.Attributes with
                                   TokenValue := some new_token.value
                                   TokenId := some new_token.id } },
             [Effect.cfCreateToken name valid_days])

/-- rotate.py rotate_between_api_tokens (lines 382-410): when OtherTokenId
is present and still exists, renew it and promote it (swap the ids, store
the rolled value); otherwise clone the active token into a fresh standby
and promote the clone. -/
def rotate_between_api_tokens (p : Provider) (secret_value : SecretDict) :
    Except PyError (SecretDict × List Effect) :=
  match secret_value.Attributes.TokenId with
  | none => .error (PyError.keyError "TokenId")
  | some cf_token_id =>
    let clone_branch : SecretDict × List Effect :=
      let new_token := p.clone_api_token cf_token_id
      ({ secret_value with
           Attributes := { secret_value.Attributes with
                             OtherTokenId := some cf_token_id
                             TokenValue := some new_token.value
                             TokenId := some new_token.id } },
       [Effect.cfClone cf_token_id])
    match secret_value.Attributes.OtherTokenId with
    | some cf_other_token_id =>
      if p.token_exists cf_other_token_id then
        let value := p.renew_api_token cf_other_token_id
        .ok ({ secret_value with
                 Attributes := { secret_value.Attributes with
                                   OtherTokenId := some cf_token_id
                                   TokenValue := some value
                                   TokenId := some cf_other_token_id } },
             [Effect.cfRenew cf_other_token_id])
      else .ok clone_branch
    | none => .ok clone_branch

/-- rotate.py rotate_or_create_api_token (lines 413-434): bootstrap when
TokenId is absent, re-create when the token was deleted out-of-band,
otherwise alternate between the two tokens. -/
def rotate_or_create_api_token (p : Provider) (current_dict : SecretDict) :
    Except PyError (SecretDict × List Effect) :=
  match current_dict.Attributes.TokenId with
  | none => create_api_token p current_dict
  | some cf_token_id =>
    if ¬ p.token_exists cf_token_id then create_api_token p current_dict
    else rotate_between_api_tokens p current_dict

/-- rotate.py create_secret lines 156-168: load the reference record,
preferring the AWSCURRENT version and falling back to the CFINIT bootstrap
version; when both raise ResourceNotFoundException the handler re-raises
that exception. -/
def get_current_dict (st : SecretsManagerState) (arn : String) :
    Except PyError SecretDict :=
  match st.getValue arn none "AWSCURRENT" with
  | some d => .ok d
  | none =>
    match st.getValue arn none "CFINIT" with
    | some d => .ok d
    | none => .error PyError.resourceNotFound

/-- rotate.py create_secret (lines 142-225): after loading the reference
record, return with no effects when a PENDING value for this version token
already exists; otherwise check the environment, produce the new payload
for the secret type, and put it under the AWSPENDING stage. -/
def create_secret (st : SecretsManagerState) (env : Env) (p : Provider)
    (arn token : String) : Except PyError (List Effect) :=
  match get_current_dict st arn with
  | .error e => .error e
  | .ok current_dict =>
    if (st.getValue arn (some token) "AWSPENDING").isSome then .ok []
    else
      let secret_type := current_dict.Type'
      match assert_env env secret_type with
      | .error e => .error e
      | .ok _ =>
        if secret_type = "apiToken" then
          match rotate_or_create_api_token p current_dict with
          | .error e => .error e
          | .ok (payload, effs) =>
            .ok (effs ++ [Effect.put arn token payload ["AWSPENDING"]])
        else if secret_type = "tunnelServiceKey" then
          let payload :=
            { current_dict with
                Attributes := { current_dict.Attributes with
                                  KeyValue := some p.create_origintunnel_service_key } }
          .ok ([Effect.cfServiceKey] ++ [Effect.put arn token payload ["AWSPENDING"]])
        else if secret_type = "argoTunnelToken" then
          match current_dict.Attributes.Hostname with
          | none => .error (PyError.keyError "Hostname")
          | some hostname =>
            match current_dict.Attributes.ValidityDays with
            | none => .error (PyError.keyError "ValidityDays")
            | some valid_days =>
              match current_dict.Attributes.ZoneId with
              | none => .error (PyError.keyError "ZoneId")
              | some zone_id =>
                let tunnel_service_key_e : Except PyError String :=
                  match current_dict.Attributes.TunnelServiceKeyArn with
                  | some tunnel_service_key_arn =>
                    match st.getValue tunnel_service_key_arn none "AWSCURRENT" with
                    | some sk_dict =>
                      match sk_dict.Attributes.KeyValue with
                      | some kv => .ok kv
                      | none => .error (PyError.keyError "KeyValue")
                    | none => .error PyError.resourceNotFound
                  | none =>
                    match env.CF_TUNNEL_SERVICE_KEY with
                    | some k => .ok k
                    | none => .error (PyError.keyError "CF_TUNNEL_SERVICE_KEY")
                match tunnel_service_key_e with
                | .error e => .error e
                | .ok tunnel_service_key =>
                  let token_value :=
                    p.create_argo_tunnel_token zone_id tunnel_service_key hostname valid_days
                  -- line 207: current_dict["TokenValue"] = ..., a top-level key
                  let payload := { current_dict with TokenValue := some token_value }
                  .ok ([Effect.cfTunnelToken zone_id tunnel_service_key hostname valid_days]
                       ++ [Effect.put arn token payload ["AWSPENDING"]])
        else .error (PyError.valueError "Invalid secret Type parameter")

/-- rotate.py set_secret (lines 228-242): pass. -/
def set_secret (st : SecretsManagerState) (env : Env) (p : Provider)
    (arn token : String) : Except PyError (List Effect) :=
  .ok []

/-- rotate.py test_secret (lines 245-279): loads the PENDING record and,
for apiToken, checks the token value is live and active; never writes. -/
def test_secret (st : SecretsManagerState) (env : Env) (p : Provider)
    (arn token : String) : Except PyError (List Effect) :=
  match st.getValue arn none "AWSPENDING" with
  | none => .error PyError.resourceNotFound
  | some pending_dict =>
    let secret_type := pending_dict.Type'
    match assert_env env secret_type with
    | .error e => .error e
    | .ok _ =>
      if secret_type = "apiToken" then
        match pending_dict.Attributes.TokenValue with
        | none => .error (PyError.keyError "TokenValue")
        | some token_value =>
          if ¬ p.is_token_valid token_value then
            match pending_dict.Attributes.TokenId with
            | none => .error (PyError.keyError "TokenId")
            | some _ => .error (PyError.valueError "testSecret failed")
          else .ok []
      else if secret_type = "tunnelServiceKey" then .ok []
      else if secret_type = "argoTunnelToken" then .ok []
      else .error (PyError.valueError "Invalid secret Type parameter")

/-- rotate.py finish_secret (lines 282-325): scan the version dict in
order for the AWSCURRENT holder; if it is already the target version,
return without mutation; otherwise move AWSCURRENT to the target version,
removing it from the previous holder if one was found. -/
def finish_secret (st : SecretsManagerState) (arn token : String) :
    Except PyError (List Effect) :=
  match st.metadata arn with
  | none => .error PyError.resourceNotFound
  | some metadata =>
    match metadata.VersionIdsToStages.find? (fun vs => decide ("AWSCURRENT" ∈ vs.2)) with
    | some vs =>
      if vs.1 = token then .ok []
      else .ok [Effect.moveStage arn "AWSCURRENT" token (some vs.1)]
    | none => .ok [Effect.moveStage arn "AWSCURRENT" token none]

/-- A rotation event (SecretId, ClientRequestToken, Step). -/
structure RotationEvent where
  SecretId : String
  ClientRequestToken : String
  Step : String
deriving DecidableEq, Repr

/-- rotate.py lambda_handler (lines 34-139): validates rotation is
enabled, the version token is known, and its staging, then dispatches to
the phase handler named by Step. -/
def lambda_handler (st : SecretsManagerState) (env : Env) (p : Provider)
    (event : RotationEvent) : Except PyError (List Effect) :=
  let arn := event.SecretId
  let token := event.ClientRequestToken
  let step := event.Step
  match st.metadata arn with
  | none => .error PyError.resourceNotFound
  | some metadata =>
    if ¬ metadata.RotationEnabled then
      .error (PyError.valueError "Secret is not enabled for rotation")
    else
      match metadata.VersionIdsToStages.find? (fun vs => decide (vs.1 = token)) with
      | none => .error (PyError.valueError "Secret version has no stage for rotation of secret")
      | some vs =>
        if "AWSCURRENT" ∈ vs.2 then .ok []
        else if ¬ ("AWSPENDING" ∈ vs.2) then
          .error (PyError.valueError "Secret version not set as AWSPENDING for rotation of secret")
        else
          if step = "createSecret" then create_secret st env p arn token
          else if step = "setSecret" then set_secret st env p arn token
          else if step = "testSecret" then test_secret st env p arn token
          else if step = "finishSecret" then finish_secret st arn token
          else .error (PyError.valueError "Invalid step parameter")

/-- N successive successful apiToken rotations: each cycle's createSecret
applies rotate_or_create_api_token to the record the previous cycle made
CURRENT. -/
def rotateIter (p : Provider) (d : SecretDict) : Nat → Except PyError SecretDict
  | 0 => .ok d
  | n + 1 =>
    match rotateIter p d n with
    | .error e => .error e
    | .ok d2 =>
      match rotate_or_create_api_token p d2 with
      | .error e => .error e
      | .ok r => .ok r.1

end Rotate

/-
  Helper predicates and concrete fixtures used by the verification below.
-/

/-- True when the effect list contains no stage-move call and every
secret-store put targets only the AWSPENDING stage. -/
def onlyPendingWrites (es : List Effect) : Bool :=
  es.all fun e =>
    match e with
    | Effect.moveStage _ _ _ _ => false
    | Effect.put _ _ _ stages => stages == ["AWSPENDING"]
    | _ => true

/-- Classifier: the result is a ValueError. -/
def PyError.isValueError : PyError → Bool
  | PyError.valueError _ => true
  | _ => false

/-- Classifier: the result is the secrets-manager ResourceNotFoundException. -/
def PyError.isResourceNotFound : PyError → Bool
  | PyError.resourceNotFound => true
  | _ => false

/-- Whether a handler run ended in an error of the given class. -/
def errorClassIs (f : PyError → Bool) (r : Except PyError (List Effect)) : Bool :=
  match r with
  | .error e => f e
  | .ok _ => false

/-- Whether a computation succeeded. -/
def isOkB {α : Type} (r : Except PyError α) : Bool :=
  match r with
  | .ok _ => true
  | .error _ => false

/-- A Cloudflare collaborator in which every token exists. -/
def exProvider : Provider :=
  { token_exists := fun _ => true
    renew_api_token := fun t => "rolled-" ++ t
    clone_api_token := fun t => { id := "clone-" ++ t, value := "vclone-" ++ t }
    create_api_token := fun name _ _ => { id := "new-" ++ name, value := "vnew" }
    create_origintunnel_service_key := "svc-key"
    create_argo_tunnel_token := fun z k h _ => z ++ "|" ++ k ++ "|" ++ h
    is_token_valid := fun _ => true }

/-- A Cloudflare collaborator in which every token has been deleted
out-of-band (exists is always false) and creation yields token C. -/
def deadProvider : Provider :=
  { exProvider with
      token_exists := fun _ => false
      create_api_token := fun _ _ _ => { id := "C", value := "vC" } }

/-- A steady-state apiToken record: active token A, standby token B. -/
def exApiDict : SecretDict :=
  { Type' := "apiToken"
    Attributes := { Name := some "ci"
                    Policies := some [{ id := some "p1", scope := "zone" }]
                    ValidDays := some 30
                    TokenId := some "A"
                    TokenValue := some "vA"
                    OtherTokenId := some "B" } }

/-- A store with no secrets at all. -/
def emptyStore : SecretsManagerState :=
  { metadata := fun _ => none, getValue := fun _ _ _ => none }

/-- A store holding exApiDict as the CURRENT version of secret arn1, with
version v2 staged AWSPENDING but its value not yet written. -/
def apiStore : SecretsManagerState :=
  { metadata := fun _ => some
      { RotationEnabled := true
        VersionIdsToStages := [("v1", ["AWSCURRENT"]), ("v2", ["AWSPENDING"])] }
    getValue := fun a v s =>
      if a = "arn1" ∧ v = none ∧ s = "AWSCURRENT" then some exApiDict else none }

/-- Like apiStore, but the AWSPENDING value for version v2 already exists. -/
def apiStorePending : SecretsManagerState :=
  { apiStore with
      getValue := fun a v s =>
        if a = "arn1" ∧ v = none ∧ s = "AWSCURRENT" then some exApiDict
        else if a = "arn1" ∧ v = some "v2" ∧ s = "AWSPENDING" then some exApiDict
        else none }

/-- A store whose secret only has a CFINIT bootstrap version value. -/
def initStore : SecretsManagerState :=
  { metadata := fun _ => none
    getValue := fun a v s =>
      if a = "arn1" ∧ v = none ∧ s = "CFINIT" then some exApiDict else none }

/-- Environment carrying only a Cloudflare admin API token. -/
def apiEnv : Env := { CF_API_TOKEN := some "admintok" }

/-- An argoTunnelToken record referencing a tunnel service key secret; its
Attributes carry a previous TokenValue. -/
def argoDict : SecretDict :=
  { Type' := "argoTunnelToken"
    Attributes := { Hostname := some "foo.example.com"
                    ValidityDays := some 7
                    ZoneId := some "z1"
                    TunnelServiceKeyArn := some "arn-sk"
                    TokenValue := some "old-tunnel-token" } }

/-- The tunnel service key secret the argo record references. -/
def skDict : SecretDict :=
  { Type' := "tunnelServiceKey", Attributes := { KeyValue := some "sk-val" } }

/-- Store for the argo rotation: argoDict is CURRENT under arn-main and
skDict is CURRENT under arn-sk. -/
def argoStore : SecretsManagerState :=
  { metadata := fun _ => none
    getValue := fun a v s =>
      if a = "arn-main" ∧ v = none ∧ s = "AWSCURRENT" then some argoDict
      else if a = "arn-sk" ∧ v = none ∧ s = "AWSCURRENT" then some skDict
      else none }

/-- Environment carrying the origin-CA key the argo path requires. -/
def argoEnv : Env := { CF_API_CERTKEY := some "certkey" }

/-- Store whose only version v1 is CURRENT (so v2 is unknown). -/
def stUnknownVersion : SecretsManagerState :=
  { metadata := fun _ => some
      { RotationEnabled := true, VersionIdsToStages := [("v1", ["AWSCURRENT"])] }
    getValue := fun _ _ _ => none }

/-- A Cloudflare token carrying both issued_on and expires_on. -/
def exCFToken : CFToken :=
  { name := some "ci"
    policies := some [{ id := some "p1", scope := "zone" }]
    issued_on := some 100
    expires_on := some 700 }

/-- A Cloudflare token with no expires_on key (created with
valid_days <= 0). -/
def noExpiryToken : CFToken :=
  { name := some "ci"
    policies := some [{ id := some "p1", scope := "zone" }] }

/-- A Cloudflare API returning exCFToken for every get. -/
def exApi : CFApi :=
  { tokens_get := fun _ => .ok exCFToken
    tokens_post := fun d => { d with id := some "new-id", value := some "new-val" }
    tokens_value_put := fun _ => "rolled-val" }

/-- A Cloudflare API returning noExpiryToken for every get. -/
def apiNoExpiry : CFApi :=
  { exApi with tokens_get := fun _ => .ok noExpiryToken }

/-
  Shared helper lemmas.
-/

/-- In the steady state (both tracked tokens exist), one rotation swaps
the roles of the two token ids and stores the rolled value. -/
theorem steady_swap (p : Provider) (d : SecretDict) (X Y : String)
    (hT : d.Attributes.TokenId = some X)
    (hO : d.Attributes.OtherTokenId = some Y)
    (hX : p.token_exists X = true)
    (hY : p.token_exists Y = true) :
    Rotate.rotate_or_create_api_token p d =
      .ok ({ d with Attributes := { d.Attributes with
               OtherTokenId := some X
               TokenValue := some (p.renew_api_token Y)
               TokenId := some Y } },
           [Effect.cfRenew Y]) := by
  simp [Rotate.rotate_or_create_api_token, Rotate.rotate_between_api_tokens, hT, hO, hX, hY]

/-- Unfolding equation for one more rotation cycle. -/
theorem rotateIter_succ (p : Provider) (d : SecretDict) (n : Nat) :
    Rotate.rotateIter p d (n + 1) =
      match Rotate.rotateIter p d n with
      | .error e => .error e
      | .ok d2 =>
        match Rotate.rotate_or_create_api_token p d2 with
        | .error e => .error e
        | .ok r => .ok r.1 := rfl

/-- Iterating rotations from a steady-state pair (A, B) with both tokens
alive keeps alternating the pair. -/
theorem rotateIter_steady (p : Provider) (d : SecretDict) (A B : String)
    (hT : d.Attributes.TokenId = some A)
    (hO : d.Attributes.OtherTokenId = some B)
    (hA : p.token_exists A = true)
    (hB : p.token_exists B = true) :
    ∀ n : Nat, ∃ d2, Rotate.rotateIter p d n = .ok d2
      ∧ d2.Attributes.TokenId = some (if n % 2 = 0 then A else B)
      ∧ d2.Attributes.OtherTokenId = some (if n % 2 = 0 then B else A) := by
  intro n
  induction n with
  | zero =>
    exact ⟨d, rfl, by simpa using hT, by simpa using hO⟩
  | succ n ih =>
    obtain ⟨d2, hIter, h1, h2⟩ := ih
    by_cases hpar : n % 2 = 0
    · rw [if_pos hpar] at h1 h2
      have hs := steady_swap p d2 A B h1 h2 hA hB
      have hmod : ¬ ((n + 1) % 2 = 0) := by omega
      refine ⟨{ d2 with Attributes := { d2.Attributes with
                  OtherTokenId := some A
                  TokenValue := some (p.renew_api_token B)
                  TokenId := some B } }, ?_, ?_, ?_⟩
      · simp only [rotateIter_succ, hIter, hs]
      · rw [if_neg hmod]
      · rw [if_neg hmod]
    · rw [if_neg hpar] at h1 h2
      have hs := steady_swap p d2 B A h1 h2 hB hA
      have hmod : (n + 1) % 2 = 0 := by omega
      refine ⟨{ d2 with Attributes := { d2.Attributes with
                  OtherTokenId := some B
                  TokenValue := some (p.renew_api_token A)
                  TokenId := some A } }, ?_, ?_, ?_⟩
      · simp only [rotateIter_succ, hIter, hs]
      · rw [if_pos hmod]
      · rw [if_pos hmod]

/-- The effects of a successful create_api_token run are a single
cf-module credential-creation call. -/
theorem create_api_token_effects (p : Provider) (d : SecretDict)
    (payload : SecretDict) (effs : List Effect)
    (h : Rotate.create_api_token p d = .ok (payload, effs)) :
    onlyPendingWrites effs = true := by
  unfold Rotate.create_api_token at h
  cases hN : d.Attributes.Name with
  | none => rw [hN] at h; cases h
  | some name =>
    rw [hN] at h
    cases hP : d.Attributes.Policies with
    | none => rw [hP] at h; cases h
    | some policies =>
      rw [hP] at h
      cases hV : d.Attributes.ValidDays with
      | none => rw [hV] at h; cases h
      | some valid_days =>
        rw [hV] at h
        simp only [Except.ok.injEq, Prod.mk.injEq] at h
        obtain ⟨-, heff⟩ := h
        subst heff
        rfl

/-- The effects of a successful rotate_between_api_tokens run are a single
cf-module renew or clone call. -/
theorem rotate_between_effects (p : Provider) (d : SecretDict)
    (payload : SecretDict) (effs : List Effect)
    (h : Rotate.rotate_between_api_tokens p d = .ok (payload, effs)) :
    onlyPendingWrites effs = true := by
  unfold Rotate.rotate_between_api_tokens at h
  cases hT : d.Attributes.TokenId with
  | none => rw [hT] at h; cases h
  | some cf_token_id =>
    rw [hT] at h
    cases hO : d.Attributes.OtherTokenId with
    | none =>
      rw [hO] at h
      simp only [Except.ok.injEq, Prod.mk.injEq] at h
      obtain ⟨-, heff⟩ := h
      subst heff
      rfl
    | some other =>
      rw [hO] at h
      by_cases hex : p.token_exists other = true
      · simp only [hex, if_true, Except.ok.injEq, Prod.mk.injEq] at h
        obtain ⟨-, heff⟩ := h
        subst heff
        rfl
      · simp only [hex, if_false, Except.ok.injEq, Prod.mk.injEq, Bool.false_eq_true] at h
        obtain ⟨-, heff⟩ := h
        subst heff
        rfl

/-- The cf-module effects of any successful rotate_or_create_api_token run
contain no secret-store operation at all. -/
theorem rotate_or_create_effects (p : Provider) (d : SecretDict)
    (payload : SecretDict) (effs : List Effect)
    (h : Rotate.rotate_or_create_api_token p d = .ok (payload, effs)) :
    onlyPendingWrites effs = true := by
  unfold Rotate.rotate_or_create_api_token at h
  cases hT : d.Attributes.TokenId with
  | none =>
    rw [hT] at h
    exact create_api_token_effects p d payload effs h
  | some cf_token_id =>
    rw [hT] at h
    by_cases hex : p.token_exists cf_token_id = true
    · simp only [hex, not_true, if_false, Bool.true_eq_false] at h
      exact rotate_between_effects p d payload effs h
    · simp only [hex, not_false_iff, if_true, Bool.false_eq_true] at h
      exact create_api_token_effects p d payload effs h

/-- All policies carrying an id makes the unconditional id-delete loop of
clone_api_token succeed. -/
theorem del_policy_ids_ok (pols : List Policy)
    (h : ∀ policy ∈ pols, policy.id.isSome = true) :
    ∃ pols2, Cf.del_policy_ids pols = .ok pols2 := by
  induction pols with
  | nil => exact ⟨[], rfl⟩
  | cons policy rest ih =>
    obtain ⟨rest2, hrest⟩ := ih fun q hq => h q (List.mem_cons_of_mem _ hq)
    have hid := h policy (List.mem_cons_self _ _)
    cases hpid : policy.id with
    | none => rw [hpid] at hid; simp at hid
    | some i =>
      exact ⟨{ policy with id := none } :: rest2, by
        simp [Cf.del_policy_ids, hpid, hrest]⟩

/-
  Claim theorems.
-/

/-- C1: For every apiToken record whose Attributes contain TokenId and an
OtherTokenId for which the provider's existence check returns true, the
rotation produces a record with TokenId equal to the old OtherTokenId,
OtherTokenId equal to the old TokenId, and TokenValue equal to the renewed
standby's rolled value; and over N successive successful rotations
(modelled by rotateIter, both tokens staying alive) the active id
alternates between the two distinct external ids. -/
theorem C1_steady_state_alternation (p : Provider) (d : SecretDict) (A B : String)
    (hT : d.Attributes.TokenId = some A)
    (hO : d.Attributes.OtherTokenId = some B)
    (hA : p.token_exists A = true)
    (hB : p.token_exists B = true)
    (hAB : A ≠ B) :
    Rotate.rotate_between_api_tokens p d =
      .ok ({ d with Attributes := { d.Attributes with
               OtherTokenId := some A
               TokenValue := some (p.renew_api_token B)
               TokenId := some B } },
           [Effect.cfRenew B])
    ∧ ∀ n : Nat, ∃ d2, Rotate.rotateIter p d n = .ok d2
        ∧ d2.Attributes.TokenId = some (if n % 2 = 0 then A else B)
        ∧ d2.Attributes.OtherTokenId = some (if n % 2 = 0 then B else A)
        ∧ d2.Attributes.TokenId ≠ d2.Attributes.OtherTokenId := by
  constructor
  · simp [Rotate.rotate_between_api_tokens, hT, hO, hB]
  · intro n
    obtain ⟨d2, hIter, h1, h2⟩ := rotateIter_steady p d A B hT hO hA hB n
    refine ⟨d2, hIter, h1, h2, ?_⟩
    rw [h1, h2]
    by_cases hpar : n % 2 = 0
    · rw [if_pos hpar, if_pos hpar]
      simp [hAB]
    · rw [if_neg hpar, if_neg hpar]
      simp [Ne.symm hAB]

/-- C1 witness: the steady-state record (A active, B standby) with a
provider in which every token exists: one rotation swaps the roles and
stores the rolled value, and two rotations return the active id to A. -/
theorem C1_steady_state_alternation_witness :
    Rotate.rotate_between_api_tokens exProvider exApiDict =
      .ok ({ exApiDict with Attributes := { exApiDict.Attributes with
               OtherTokenId := some "A"
               TokenValue := some (exProvider.renew_api_token "B")
               TokenId := some "B" } },
           [Effect.cfRenew "B"])
    ∧ ∃ d2, Rotate.rotateIter exProvider exApiDict 2 = .ok d2
        ∧ d2.Attributes.TokenId = some (if 2 % 2 = 0 then "A" else "B")
        ∧ d2.Attributes.OtherTokenId = some (if 2 % 2 = 0 then "B" else "A")
        ∧ d2.Attributes.TokenId ≠ d2.Attributes.OtherTokenId := by
  have h := C1_steady_state_alternation exProvider exApiDict "A" "B"
    rfl rfl rfl rfl (by decide)
  exact ⟨h.1, h.2 2⟩

/-- C2 counterexample: with TokenId = A deleted out-of-band (exists(A)
false) and a stale OtherTokenId = B in the record, the self-heal path
returns a record that still carries OtherTokenId = B — the claim that
this path's result carries no OtherTokenId is false. -/
theorem C2_counterexample :
    (Rotate.rotate_or_create_api_token deadProvider exApiDict).map
        (fun r => r.1.Attributes.OtherTokenId) = .ok (some "B")
    ∧ (some "B" : Option String) ≠ none := by
  exact ⟨rfl, by decide⟩

/-- C2 (amended): when the provider's existence check on TokenId fails,
the rotation issues a brand-new credential and overwrites TokenId and
TokenValue, but the OtherTokenId attribute is carried over unchanged from
the input record (a stale reference is retained, not dropped). -/
theorem C2_self_heal_preserves_other_token (p : Provider) (d : SecretDict)
    (A name : String) (policies : List Policy) (valid_days : Int)
    (hT : d.Attributes.TokenId = some A)
    (hE : p.token_exists A = false)
    (hN : d.Attributes.Name = some name)
    (hP : d.Attributes.Policies = some policies)
    (hV : d.Attributes.ValidDays = some valid_days) :
    Rotate.rotate_or_create_api_token p d =
      .ok ({ d with Attributes := { d.Attributes with
               TokenValue := some (p.create_api_token name policies valid_days).value
               TokenId := some (p.create_api_token name policies valid_days).id } },
           [Effect.cfCreateToken name valid_days])
    ∧ ({ d with Attributes := { d.Attributes with
           TokenValue := some (p.create_api_token name policies valid_days).value
           TokenId := some (p.create_api_token name policies valid_days).id } }
         : SecretDict).Attributes.OtherTokenId = d.Attributes.OtherTokenId := by
  constructor
  · simp [Rotate.rotate_or_create_api_token, Rotate.create_api_token, hT, hE, hN, hP, hV]
  · rfl

/-- C2 witness: the amended self-heal behaviour evaluated on the concrete
record with stale standby B and the all-deleted provider. -/
theorem C2_self_heal_witness :
    Rotate.rotate_or_create_api_token deadProvider exApiDict =
      .ok ({ exApiDict with Attributes := { exApiDict.Attributes with
               TokenValue := some "vC"
               TokenId := some "C" } },
           [Effect.cfCreateToken "ci" 30]) := by
  have h := C2_self_heal_preserves_other_token deadProvider exApiDict "A" "ci"
    [{ id := some "p1", scope := "zone" }] 30 rfl rfl rfl rfl rfl
  exact h.1

/-- C3: no phase handler other than finishSecret moves or assigns the
CURRENT stage label: every secret-store write createSecret makes is a put
with exactly the AWSPENDING stage; setSecret and testSecret make no
secret-store write at all; and finishSecret's only possible write is a
single stage-move of AWSCURRENT. -/
theorem C3_only_finish_moves_current :
    (∀ st env p arn token es,
        Rotate.create_secret st env p arn token = .ok es →
        onlyPendingWrites es = true)
    ∧ (∀ st env p arn token, Rotate.set_secret st env p arn token = .ok [])
    ∧ (∀ st env p arn token es,
        Rotate.test_secret st env p arn token = .ok es → es = [])
    ∧ (∀ st arn token es,
        Rotate.finish_secret st arn token = .ok es →
        es = [] ∨ ∃ cv, es = [Effect.moveStage arn "AWSCURRENT" token cv]) := by
  refine ⟨?_, ?_, ?_, ?_⟩
  · intro st env p arn token es h
    unfold Rotate.create_secret at h
    cases hcd : Rotate.get_current_dict st arn with
    | error e => rw [hcd] at h; cases h
    | ok current_dict =>
      rw [hcd] at h
      by_cases hpend : (st.getValue arn (some token) "AWSPENDING").isSome = true
      · simp only [hpend, if_true, Except.ok.injEq] at h
        subst h
        rfl
      · simp only [hpend, if_false, Bool.false_eq_true] at h
        cases hae : Rotate.assert_env env current_dict.Type' with
        | error e => rw [hae] at h; cases h
        | ok env2 =>
          rw [hae] at h
          by_cases hapi : current_dict.Type' = "apiToken"
          · simp only [hapi, if_true, reduceIte] at h
            cases hroc : Rotate.rotate_or_create_api_token p current_dict with
            | error e => rw [hroc] at h; cases h
            | ok r =>
              rw [hroc] at h
              obtain ⟨payload, effs⟩ := r
              simp only [Except.ok.injEq] at h
              subst h
              have heffs := rotate_or_create_effects p current_dict payload effs hroc
              simp only [onlyPendingWrites, List.all_append] at heffs ⊢
              simp [heffs]
          · simp only [hapi, if_false, reduceIte] at h
            by_cases hsk : current_dict.Type' = "tunnelServiceKey"
            · simp only [hsk, reduceIte] at h
              simp only [Except.ok.injEq] at h
              subst h
              rfl
            · simp only [hsk, reduceIte] at h
              by_cases hargo : current_dict.Type' = "argoTunnelToken"
              · simp only [hargo, reduceIte] at h
                cases hH : current_dict.Attributes.Hostname with
                | none => rw [hH] at h; cases h
                | some hostname =>
                  rw [hH] at h
                  cases hV : current_dict.Attributes.ValidityDays with
                  | none => rw [hV] at h; cases h
                  | some valid_days =>
                    rw [hV] at h
                    cases hZ : current_dict.Attributes.ZoneId with
                    | none => rw [hZ] at h; cases h
                    | some zone_id =>
                      rw [hZ] at h
                      set ske := (match current_dict.Attributes.TunnelServiceKeyArn with
                        | some tunnel_service_key_arn =>
                          match st.getValue tunnel_service_key_arn none "AWSCURRENT" with
                          | some sk_dict =>
                            match sk_dict.Attributes.KeyValue with
                            | some kv => Except.ok kv
                            | none => Except.error (PyError.keyError "KeyValue")
                          | none => Except.error PyError.resourceNotFound
                        | none =>
                          match env.CF_TUNNEL_SERVICE_KEY with
                          | some k => Except.ok k
                          | none => Except.error (PyError.keyError "CF_TUNNEL_SERVICE_KEY")
                        : Except PyError String) with hske
                      cases hske2 : ske with
                      | error e => rw [hske2] at h; cases h
                      | ok tunnel_service_key =>
                        rw [hske2] at h
                        simp only [Except.ok.injEq] at h
                        subst h
                        rfl
              · simp only [hargo, reduceIte] at h
                cases h
  · intro st env p arn token
    rfl
  · intro st env p arn token es h
    unfold Rotate.test_secret at h
    cases hpd : st.getValue arn none "AWSPENDING" with
    | none => rw [hpd] at h; cases h
    | some pending_dict =>
      rw [hpd] at h
      simp only [] at h
      cases hae : Rotate.assert_env env pending_dict.Type' with
      | error e => rw [hae] at h; cases h
      | ok env2 =>
        rw [hae] at h
        by_cases hapi : pending_dict.Type' = "apiToken"
        · simp only [hapi, reduceIte] at h
          cases hTV : pending_dict.Attributes.TokenValue with
          | none => rw [hTV] at h; cases h
          | some token_value =>
            rw [hTV] at h
            by_cases hvalid : p.is_token_valid token_value = true
            · simp only [hvalid, not_true, reduceIte, Bool.true_eq_false] at h
              simp only [Except.ok.injEq] at h
              exact h.symm
            · simp only [hvalid, reduceIte, Bool.false_eq_true, not_false_iff, if_true] at h
              cases hTI : pending_dict.Attributes.TokenId with
              | none => rw [hTI] at h; cases h
              | some tid => rw [hTI] at h; cases h
        · simp only [hapi, reduceIte] at h
          by_cases hsk : pending_dict.Type' = "tunnelServiceKey"
          · simp only [hsk, reduceIte, Except.ok.injEq] at h
            exact h.symm
          · simp only [hsk, reduceIte] at h
            by_cases hargo : pending_dict.Type' = "argoTunnelToken"
            · simp only [hargo, reduceIte, Except.ok.injEq] at h
              exact h.symm
            · simp only [hargo, reduceIte] at h
              cases h
  · intro st arn token es h
    unfold Rotate.finish_secret at h
    cases hm : st.metadata arn with
    | none => rw [hm] at h; cases h
    | some metadata =>
      rw [hm] at h
      simp only [] at h
      cases hf : metadata.VersionIdsToStages.find? (fun vs => decide ("AWSCURRENT" ∈ vs.2)) with
      | none =>
        rw [hf] at h
        simp only [Except.ok.injEq] at h
        exact Or.inr ⟨none, h.symm⟩
      | some vs =>
        rw [hf] at h
        by_cases hv : vs.1 = token
        · simp only [hv, reduceIte, Except.ok.injEq] at h
          exact Or.inl h.symm
        · simp only [hv, reduceIte, Except.ok.injEq] at h
          exact Or.inr ⟨some vs.1, h.symm⟩

/-- C3 witness: a concrete steady-state createSecret run writes only to
AWSPENDING, and setSecret at the same inputs performs no operation. -/
theorem C3_only_finish_moves_current_witness :
    onlyPendingWrites [Effect.cfRenew "B",
      Effect.put "arn1" "v2"
        { exApiDict with Attributes := { exApiDict.Attributes with
            OtherTokenId := some "A"
            TokenValue := some "rolled-B"
            TokenId := some "B" } }
        ["AWSPENDING"]] = true
    ∧ Rotate.set_secret apiStore apiEnv exProvider "arn1" "v2" = .ok [] := by
  have h := C3_only_finish_moves_current
  exact ⟨h.1 apiStore apiEnv exProvider "arn1" "v2" _ rfl,
         h.2.1 apiStore apiEnv exProvider "arn1" "v2"⟩

/-- C5: if the reference record is loadable and a PENDING secret value for
this exact version token already exists, createSecret returns without any
side effect: its effect trace is empty, so it issues no external
credential and performs no secret-store write (hence a repeat call leaves
the PENDING payload untouched and creates no duplicate credential). -/
theorem C5_create_secret_idempotent (st : SecretsManagerState) (env : Env)
    (p : Provider) (arn token : String) (d : SecretDict)
    (hcur : Rotate.get_current_dict st arn = .ok d)
    (hpend : (st.getValue arn (some token) "AWSPENDING").isSome = true) :
    Rotate.create_secret st env p arn token = .ok [] := by
  unfold Rotate.create_secret
  rw [hcur]
  simp only [hpend, if_true]

/-- C5 witness: with the AWSPENDING value for version v2 already present,
the repeated createSecret run produces no effects. -/
theorem C5_create_secret_idempotent_witness :
    Rotate.create_secret apiStorePending apiEnv exProvider "arn1" "v2" = .ok [] :=
  C5_create_secret_idempotent apiStorePending apiEnv exProvider "arn1" "v2"
    exApiDict rfl rfl

/-- C6: when the stage mapping already assigns AWSCURRENT to the target
version token (and, per the store invariant, to no other version),
finishSecret returns without invoking the stage-move operation. -/
theorem C6_finish_secret_idempotent (st : SecretsManagerState) (arn token : String)
    (m : SecretMetadata)
    (hm : st.metadata arn = some m)
    (hmem : ∃ s, (token, s) ∈ m.VersionIdsToStages ∧ "AWSCURRENT" ∈ s)
    (huniq : ∀ vs ∈ m.VersionIdsToStages, "AWSCURRENT" ∈ vs.2 → vs.1 = token) :
    Rotate.finish_secret st arn token = .ok [] := by
  unfold Rotate.finish_secret
  rw [hm]
  simp only []
  cases hfind : m.VersionIdsToStages.find? (fun vs => decide ("AWSCURRENT" ∈ vs.2)) with
  | none =>
    rw [List.find?_eq_none] at hfind
    obtain ⟨s, hmem2, hcur⟩ := hmem
    exact absurd (by simpa using hcur) (by simpa using hfind (token, s) hmem2)
  | some vs =>
    have hpred := List.find?_some hfind
    have hmem2 := List.mem_of_find?_eq_some hfind
    have hv : vs.1 = token := huniq vs hmem2 (by simpa using hpred)
    simp [hv]

/-- C6 witness: the target version already carries AWSCURRENT in a
single-current store, and finishSecret performs no mutation. -/
theorem C6_finish_secret_idempotent_witness :
    Rotate.finish_secret
      { metadata := fun _ => some
          { RotationEnabled := true
            VersionIdsToStages := [("v1", ["AWSPREVIOUS"]), ("v2", ["AWSPENDING", "AWSCURRENT"])] }
        getValue := fun _ _ _ => none } "arn1" "v2" = .ok [] :=
  C6_finish_secret_idempotent _ "arn1" "v2"
    { RotationEnabled := true
      VersionIdsToStages := [("v1", ["AWSPREVIOUS"]), ("v2", ["AWSPENDING", "AWSCURRENT"])] }
    rfl ⟨["AWSPENDING", "AWSCURRENT"], by decide, by decide⟩ (by decide)

/-- C7 counterexample: with neither an AWSCURRENT nor a CFINIT version,
createSecret fails with the store's ResourceNotFoundException (a
NotFound-style error, re-raised at rotate.py line 168), not with the
ValueError class used for configuration errors — the claim that the
failure is a ConfigurationError rather than a NotFound-style error is
false on this input. -/
theorem C7_counterexample :
    errorClassIs PyError.isResourceNotFound
        (Rotate.create_secret emptyStore apiEnv exProvider "arn1" "v2") = true
    ∧ errorClassIs PyError.isValueError
        (Rotate.create_secret emptyStore apiEnv exProvider "arn1" "v2") = false := by
  exact ⟨rfl, rfl⟩

/-- C7 (amended): createSecret loads the reference record preferring the
AWSCURRENT version, falls back to the bootstrap CFINIT version when
AWSCURRENT does not exist, and when neither exists it fails by re-raising
the store's ResourceNotFound error (not a ConfigurationError/ValueError). -/
theorem C7_reference_load_fallback :
    (∀ st arn d, SecretsManagerState.getValue st arn none "AWSCURRENT" = some d →
        Rotate.get_current_dict st arn = .ok d)
    ∧ (∀ st arn d, SecretsManagerState.getValue st arn none "AWSCURRENT" = none →
        SecretsManagerState.getValue st arn none "CFINIT" = some d →
        Rotate.get_current_dict st arn = .ok d)
    ∧ (∀ st env p arn token,
        SecretsManagerState.getValue st arn none "AWSCURRENT" = none →
        SecretsManagerState.getValue st arn none "CFINIT" = none →
        Rotate.create_secret st env p arn token = .error PyError.resourceNotFound) := by
  refine ⟨?_, ?_, ?_⟩
  · intro st arn d h1
    simp [Rotate.get_current_dict, h1]
  · intro st arn d h1 h2
    simp [Rotate.get_current_dict, h1, h2]
  · intro st env p arn token h1 h2
    unfold Rotate.create_secret Rotate.get_current_dict
    rw [h1, h2]

/-- C7 witness: the CURRENT-preferring load, the CFINIT fallback and the
re-raised NotFound error, each at a concrete store. -/
theorem C7_reference_load_fallback_witness :
    Rotate.get_current_dict apiStore "arn1" = .ok exApiDict
    ∧ Rotate.get_current_dict initStore "arn1" = .ok exApiDict
    ∧ Rotate.create_secret emptyStore apiEnv exProvider "arn1" "v2"
        = .error PyError.resourceNotFound := by
  have h := C7_reference_load_fallback
  exact ⟨h.1 apiStore "arn1" exApiDict rfl,
         h.2.1 initStore "arn1" exApiDict rfl rfl,
         h.2.2 emptyStore apiEnv exProvider "arn1" "v2" rfl rfl⟩

/-- C8 counterexample: for a rotation event whose version token is not a
known version, the orchestrator raises the generic ValueError class (the
same class it uses for configuration errors such as rotation-disabled),
not the ResourceNotFound class that represents NotFound-style failures —
the claim that it fails with a NotFoundError is false on this input. -/
theorem C8_counterexample :
    errorClassIs PyError.isValueError
        (Rotate.lambda_handler stUnknownVersion apiEnv exProvider
          { SecretId := "arn1", ClientRequestToken := "v2", Step := "createSecret" }) = true
    ∧ errorClassIs PyError.isResourceNotFound
        (Rotate.lambda_handler stUnknownVersion apiEnv exProvider
          { SecretId := "arn1", ClientRequestToken := "v2", Step := "createSecret" }) = false := by
  exact ⟨rfl, rfl⟩

/-- C8 (amended): for every rotation event whose requestVersionToken does
not appear in the store's version-to-stages mapping, the orchestrator
fails before dispatching to any phase handler — the result is the same
ValueError for every Step value — with the generic ValueError class, not
a distinct NotFound-style error. -/
theorem C8_unknown_version_fails_before_dispatch (st : SecretsManagerState)
    (env : Env) (p : Provider) (event : Rotate.RotationEvent) (m : SecretMetadata)
    (hm : st.metadata event.SecretId = some m)
    (hrot : m.RotationEnabled = true)
    (hunk : ∀ vs ∈ m.VersionIdsToStages, vs.1 ≠ event.ClientRequestToken) :
    Rotate.lambda_handler st env p event =
      .error (PyError.valueError "Secret version has no stage for rotation of secret") := by
  have hfind : m.VersionIdsToStages.find?
      (fun vs => decide (vs.1 = event.ClientRequestToken)) = none := by
    rw [List.find?_eq_none]
    intro vs hvs
    simpa using hunk vs hvs
  simp [Rotate.lambda_handler, hm, hrot, hfind]

/-- C8 witness: the unknown version token v2 on a store whose only version
is v1, for a concrete event. -/
theorem C8_unknown_version_witness :
    Rotate.lambda_handler stUnknownVersion apiEnv exProvider
        { SecretId := "arn1", ClientRequestToken := "v2", Step := "testSecret" } =
      .error (PyError.valueError "Secret version has no stage for rotation of secret") :=
  C8_unknown_version_fails_before_dispatch stUnknownVersion apiEnv exProvider
    { SecretId := "arn1", ClientRequestToken := "v2", Step := "testSecret" }
    { RotationEnabled := true, VersionIdsToStages := [("v1", ["AWSCURRENT"])] }
    rfl rfl (by decide)

/-- C4 (code bug witness): on a concrete argoTunnelToken record the
createSecret phase does request the fresh tunnel credential with the
record's ZoneId, the service key resolved through TunnelServiceKeyArn,
the Hostname and the ValidityDays, and persists a PENDING payload — but
the credential is stored under a top-level TokenValue key of the payload
(rotate.py line 207 writes current_dict["TokenValue"], not
current_dict["Attributes"]["TokenValue"]), while the TokenValue attribute
keeps its old value. -/
theorem C4_token_value_written_at_top_level :
    Rotate.create_secret argoStore argoEnv exProvider "arn-main" "v2" =
      .ok [Effect.cfTunnelToken "z1" "sk-val" "foo.example.com" 7,
           Effect.put "arn-main" "v2"
             { argoDict with TokenValue := some "z1|sk-val|foo.example.com" }
             ["AWSPENDING"]]
    ∧ ({ argoDict with TokenValue := some "z1|sk-val|foo.example.com" }
         : SecretDict).Attributes.TokenValue = some "old-tunnel-token" := by
  exact ⟨rfl, rfl⟩

/-- The expires_on carried by the token data a clone run posts. -/
def clonePostedExpiry (r : Except PyError (CFToken × List CFEffect)) : Option (Option Int) :=
  match r with
  | .ok (_, [CFEffect.post d]) => some d.expires_on
  | _ => none

/-- The expires_on carried by the token data a renew run puts back. -/
def renewPutExpiry (r : Except PyError (String × List CFEffect)) : Option (Option Int) :=
  match r with
  | .ok (_, CFEffect.put _ d :: _) => some d.expires_on
  | _ => none

/-- C9: for a source token carrying issued_on = t0 and expires_on = t1
(and the keys the clone path reads), both clone_api_token and
renew_api_token produce token data whose expires_on is
now + (t1 - t0): the original validity duration, not a fixed day count. -/
theorem C9_validity_window_preserved (api : CFApi) (now t0 t1 : Int)
    (token_id : String) (tok : CFToken) (nm : String) (pols : List Policy)
    (hget : api.tokens_get token_id = .ok tok)
    (hi : tok.issued_on = some t0)
    (he : tok.expires_on = some t1)
    (hn : tok.name = some nm)
    (hp : tok.policies = some pols)
    (hids : ∀ policy ∈ pols, policy.id.isSome = true) :
    clonePostedExpiry (Cf.clone_api_token api now token_id)
        = some (some (now + (t1 - t0)))
    ∧ renewPutExpiry (Cf.renew_api_token api now token_id)
        = some (some (now + (t1 - t0))) := by
  obtain ⟨pols2, hdel⟩ := del_policy_ids_ok pols hids
  constructor
  · simp [clonePostedExpiry, Cf.clone_api_token, hget, hn, hp, hdel, he, hi,
      date_fmt, isoparse]
  · simp [renewPutExpiry, Cf.renew_api_token, Cf.roll_api_token, hget, he, hi,
      date_fmt, isoparse]

/-- C9 witness: a token issued at 100 expiring at 700, cloned and renewed
at now = 1000: both carry expires_on = 1000 + (700 - 100). -/
theorem C9_validity_window_preserved_witness :
    clonePostedExpiry (Cf.clone_api_token exApi 1000 "tid")
        = some (some (1000 + (700 - 100)))
    ∧ renewPutExpiry (Cf.renew_api_token exApi 1000 "tid")
        = some (some (1000 + (700 - 100))) :=
  C9_validity_window_preserved exApi 1000 100 700 "tid" exCFToken "ci"
    [{ id := some "p1", scope := "zone" }] rfl rfl rfl rfl rfl (by decide)

/-- C10: creation with valid_days <= 0 posts token data without
expires_on, and for every source token lacking expires_on both
clone_api_token and renew_api_token fail with an error (the unconditional
use of the conditionally-bound expiry variables) instead of producing a
token without an expiry. -/
theorem C10_missing_expiry_fails (api : CFApi) (now : Int) (token_id : String)
    (tok : CFToken) (nm : String) (pols : List Policy) (valid_days : Int)
    (hget : api.tokens_get token_id = .ok tok)
    (he : tok.expires_on = none)
    (hvd : valid_days ≤ 0) :
    (∃ d, Cf.create_api_token api now nm pols valid_days
        = (api.tokens_post d, [CFEffect.post d]) ∧ d.expires_on = none)
    ∧ isOkB (Cf.clone_api_token api now token_id) = false
    ∧ Cf.renew_api_token api now token_id = .error (PyError.nameError "expires_date") := by
  refine ⟨?_, ?_, ?_⟩
  · refine ⟨{ name := some nm, not_before := some (date_fmt now),
              policies := some (pols.map Cf.strip_policy_id) }, ?_, rfl⟩
    have hvd2 : ¬ (valid_days > 0) := by omega
    simp [Cf.create_api_token, hvd2]
  · simp only [isOkB, Cf.clone_api_token, hget]
    cases hn : tok.name with
    | none => rfl
    | some nm2 =>
      cases hp : tok.policies with
      | none => rfl
      | some pols2 =>
        cases hdel : Cf.del_policy_ids pols2 with
        | error e => simp [hdel]
        | ok pols3 => simp [hdel, he]
  · simp [Cf.renew_api_token, hget, he]

/-- C10 witness: a token with no expires_on: creation with valid_days = 0
omits expires_on and both clone and renew fail. -/
theorem C10_missing_expiry_fails_witness :
    (∃ d, Cf.create_api_token apiNoExpiry 0 "ci" [] 0
        = (apiNoExpiry.tokens_post d, [CFEffect.post d]) ∧ d.expires_on = none)
    ∧ isOkB (Cf.clone_api_token apiNoExpiry 0 "tid") = false
    ∧ Cf.renew_api_token apiNoExpiry 0 "tid" = .error (PyError.nameError "expires_date") :=
  C10_missing_expiry_fails apiNoExpiry 0 "tid" noExpiryToken "ci" [] 0
    rfl rfl (by decide)
